import Mathlib

/-!
Shallow embedding of `src/daily_report.py` (RescueTime daily report script).

The script fetches one day of RescueTime interval data, aggregates it by hour
and by category, renders a markdown report, and emails it.  Machine integers
are modelled as `Int` (Python integers are unbounded); Python's `//` and `%`
on integers are floor division and floor modulus, i.e. `Int.fdiv` and
`Int.emod` (the latter coincides with Lean's `%` on `Int` for a positive
divisor); code that can raise an exception is modelled as `Option`-valued.
Python `dict`s (including `defaultdict`) are modelled as insertion-ordered
association lists, and Python's stable `sorted` as `List.insertionSort`,
which is stable and produces the same list.
-/

/-- One element of the `"rows"` array of the RescueTime payload: a 6-element
array `[timestamp, seconds, people, activity, category, productivity]`
(index 2 is read into `_` and never used). -/
structure ActivityRow where
  timestamp : String
  seconds : Int
  unused : Int
  activity : String
  category : String
  productivity : Int
deriving Repr, DecidableEq

/-- The JSON object handed to `generate_report`.  The function only reads
`data.get("rows", [])`; `rows = none` models a payload with no "rows" key. -/
structure ReportData where
  rows : Option (List ActivityRow)
deriving Repr, DecidableEq

/-- `data.get("rows", [])`. -/
def ReportData.rowsOrEmpty (d : ReportData) : List ActivityRow :=
  d.rows.getD []

/-- Python's `f"{n:02d}"`: pad with zeros to a minimal width of 2. -/
def pad2 (n : Int) : String :=
  if 0 ≤ n ∧ n < 10 then "0" ++ toString n else toString n

/-- `format_duration(seconds)` from the script:
`hours = seconds // 3600; minutes = (seconds % 3600) // 60;`
`f"{hours}h{minutes:02d}"` when `hours > 0`, else `f"{minutes}min"`. -/
def format_duration (seconds : Int) : String :=
  let hours := Int.fdiv seconds 3600
  let minutes := Int.fdiv (seconds % 3600) 60
  if hours > 0 then toString hours ++ "h" ++ pad2 minutes
  else toString minutes ++ "min"

/-- `get_productivity_label(score)`: a dict lookup with default `"⚪ Neutre"`. -/
def get_productivity_label (score : Int) : String :=
  if score = 2 then "🟢 Très productif"
  else if score = 1 then "🔵 Productif"
  else if score = 0 then "⚪ Neutre"
  else if score = -1 then "🟠 Distrayant"
  else if score = -2 then "🔴 Très distrayant"
  else "⚪ Neutre"

/-- `timestamp.replace("Z", "+00:00")` on the character list: Python's
`str.replace` substitutes every occurrence of the one-character pattern. -/
def replaceZChars : List Char → List Char
  | [] => []
  | c :: cs =>
    if c = 'Z' then '+' :: '0' :: '0' :: ':' :: '0' :: '0' :: replaceZChars cs
    else c :: replaceZChars cs

/-- `timestamp.replace("Z", "+00:00")`. -/
def replaceZ (s : String) : String :=
  String.mk (replaceZChars s.toList)

/-- Models `datetime.fromisoformat(timestamp.replace("Z", "+00:00")).strftime("%Hh")`
for timestamps of the shape `YYYY-MM-DDTHH...`: returns the two hour digits
followed by `"h"`; `none` models the `ValueError` raised by `fromisoformat`
when the string does not have that shape. -/
def parseHour (timestamp : String) : Option String :=
  match (replaceZ timestamp).toList with
  | y1 :: y2 :: y3 :: y4 :: sep1 :: mo1 :: mo2 :: sep2 :: d1 :: d2 :: t :: h1 :: h2 :: _ =>
    if y1.isDigit && y2.isDigit && y3.isDigit && y4.isDigit && sep1 == '-' &&
       mo1.isDigit && mo2.isDigit && sep2 == '-' && d1.isDigit && d2.isDigit &&
       t == 'T' && h1.isDigit && h2.isDigit then
      some (String.mk [h1, h2] ++ "h")
    else none
  | _ => none

/-- The per-hour record of `hourly_data`:
`{"activities": [...], "total_seconds": 0, "productive_seconds": 0, "distracting_seconds": 0}`.
An activity entry `{"name": ..., "seconds": ..., "productivity": ..., "category": ...}`
is modelled by `Activity`. -/
structure Activity where
  name : String
  seconds : Int
  productivity : Int
  category : String
deriving Repr, DecidableEq

structure HourBucket where
  activities : List Activity
  total_seconds : Int
  productive_seconds : Int
  distracting_seconds : Int
deriving Repr, DecidableEq

/-- The value a fresh `defaultdict` entry of `hourly_data` starts from. -/
def emptyBucket : HourBucket :=
  { activities := [], total_seconds := 0, productive_seconds := 0, distracting_seconds := 0 }

/-- The accumulator variables of the `for row in rows` loop of `generate_report`. -/
structure AggState where
  hourly_data : List (String × HourBucket)
  category_totals : List (String × Int)
  total_productive : Int
  total_distracting : Int
  total_time : Int
deriving Repr, DecidableEq

/-- Write through a Python `defaultdict`: update the entry at key `k` with `f`,
materialising a fresh entry `f dflt` at the end (dicts are insertion-ordered)
when the key is absent. -/
def updateD (dflt : β) (f : β → β) : List (String × β) → String → List (String × β)
  | [], k => [(k, f dflt)]
  | (k', v) :: t, k => if k' = k then (k', f v) :: t else (k', v) :: updateD dflt f t k

/-- One iteration of the `for row in rows` loop: bucket the row by hour,
accumulate per-hour, per-category and global totals, classifying seconds via
`if productivity >= 1: ... elif productivity <= -1: ...`.  `none` models the
exception raised when the timestamp cannot be parsed. -/
def stepRow (s : AggState) (r : ActivityRow) : Option AggState :=
  match parseHour r.timestamp with
  | none => none
  | some hour =>
    let act : Activity :=
      { name := r.activity, seconds := r.seconds, productivity := r.productivity,
        category := r.category }
    let updBucket : HourBucket → HourBucket := fun b =>
      let b := { b with activities := b.activities ++ [act],
                        total_seconds := b.total_seconds + r.seconds }
      if r.productivity ≥ 1 then
        { b with productive_seconds := b.productive_seconds + r.seconds }
      else if r.productivity ≤ -1 then
        { b with distracting_seconds := b.distracting_seconds + r.seconds }
      else b
    some
      { hourly_data := updateD emptyBucket updBucket s.hourly_data hour,
        category_totals := updateD 0 (· + r.seconds) s.category_totals r.category,
        total_productive :=
          if r.productivity ≥ 1 then s.total_productive + r.seconds else s.total_productive,
        total_distracting :=
          if r.productivity ≥ 1 then s.total_distracting
          else if r.productivity ≤ -1 then s.total_distracting + r.seconds
          else s.total_distracting,
        total_time := s.total_time + r.seconds }

/-- The accumulators before the loop starts. -/
def initState : AggState :=
  { hourly_data := [], category_totals := [], total_productive := 0,
    total_distracting := 0, total_time := 0 }

/-- The whole `for row in rows` loop of `generate_report`. -/
def aggregate (rows : List ActivityRow) : Option AggState :=
  rows.foldlM stepRow initState

/-- `total_productive*100//total_time if total_time else 0` (line 73). -/
def productivePct (s : AggState) : Int :=
  if s.total_time ≠ 0 then Int.fdiv (s.total_productive * 100) s.total_time else 0

/-- `total_distracting*100//total_time if total_time else 0` (line 74). -/
def distractingPct (s : AggState) : Int :=
  if s.total_time ≠ 0 then Int.fdiv (s.total_distracting * 100) s.total_time else 0

/-- The key order of `sorted(category_totals.items(), key=lambda x: x[1], reverse=True)`:
descending by summed seconds.  Python's `sorted` is stable and `reverse=True`
keeps ties in insertion order, exactly as a stable sort by this relation does. -/
def catDescOrder (a b : String × Int) : Prop := b.2 ≤ a.2

instance : DecidableRel catDescOrder := fun a b => inferInstanceAs (Decidable (b.2 ≤ a.2))

instance : IsTotal (String × Int) catDescOrder := ⟨fun a b => le_total b.2 a.2⟩

instance : IsTrans (String × Int) catDescOrder := ⟨fun _ _ _ h1 h2 => le_trans h2 h1⟩

/-- `sorted(category_totals.items(), key=lambda x: x[1], reverse=True)` (line 89). -/
def sortedCategories (l : List (String × Int)) : List (String × Int) :=
  l.insertionSort catDescOrder

/-- The key order of `sorted(data_hour["activities"], key=lambda x: x["seconds"], reverse=True)`. -/
def actDescOrder (a b : Activity) : Prop := b.seconds ≤ a.seconds

instance : DecidableRel actDescOrder := fun a b => inferInstanceAs (Decidable (b.seconds ≤ a.seconds))

instance : IsTotal Activity actDescOrder := ⟨fun a b => le_total b.seconds a.seconds⟩

instance : IsTrans Activity actDescOrder := ⟨fun _ _ _ h1 h2 => le_trans h2 h1⟩

/-- `sorted(data_hour["activities"], key=lambda x: x["seconds"], reverse=True)[:3]` (line 81). -/
def topActivities (acts : List Activity) : List Activity :=
  (acts.insertionSort actDescOrder).take 3

/-- One `- **name** (duration) label` line of the per-hour section (line 84). -/
def renderActivityLine (act : Activity) : String :=
  "- **" ++ act.name ++ "** (" ++ format_duration act.seconds ++ ") "
    ++ get_productivity_label act.productivity ++ "\n"

/-- The `### HHh - total` block emitted for one hour (lines 79-85). -/
def renderHourSection (hourly : List (String × HourBucket)) (hour : String) : String :=
  let b := (hourly.lookup hour).getD emptyBucket
  "### " ++ hour ++ " - " ++ format_duration b.total_seconds ++ "\n"
    ++ String.join ((topActivities b.activities).map renderActivityLine) ++ "\n"

/-- One `| category | time |` row of the category table (line 90). -/
def renderCategoryRow (c : String × Int) : String :=
  "| " ++ c.1 ++ " | " ++ format_duration c.2 ++ " |\n"

/-- Lines 70-92 of `generate_report`: the report text built after the loop.
`today` stands for `datetime.now().strftime("%d/%m/%Y")`. -/
def renderReport (today : String) (s : AggState) : String :=
  "# 📊 Rapport RescueTime - " ++ today ++ "\n\n"
    ++ "**Temps total suivi** : " ++ format_duration s.total_time ++ "\n"
    ++ "**Temps productif** : " ++ format_duration s.total_productive
    ++ " (" ++ toString (productivePct s) ++ "%)\n"
    ++ "**Temps distrayant** : " ++ format_duration s.total_distracting
    ++ " (" ++ toString (distractingPct s) ++ "%)\n\n"
    ++ "---\n\n## 🕐 Détail par heure\n\n"
    ++ String.join
      (((s.hourly_data.map Prod.fst).insertionSort (· ≤ ·)).map
        (renderHourSection s.hourly_data))
    ++ "---\n\n## 📂 Récapitulatif par catégorie\n\n"
    ++ "| Catégorie | Temps |\n|-----------|-------|\n"
    ++ String.join ((sortedCategories s.category_totals).map renderCategoryRow)

/-- The sentinel returned on empty input (line 45). -/
def noDataMessage : String := "Aucune donnée RescueTime disponible pour aujourd\x27hui."

/-- `generate_report(data)`, with the current date passed explicitly.
`none` models an uncaught exception (an unparseable timestamp). -/
def generate_report (today : String) (data : ReportData) : Option String :=
  let rows := data.rowsOrEmpty
  if rows.isEmpty then some noDataMessage
  else (aggregate rows).map (renderReport today)

/-- The two outbound network calls `main` can issue. -/
inductive NetEvent where
  | fetchData
  | sendEmail
deriving Repr, DecidableEq

/-- Python truthiness of a configuration value read with `os.environ.get`:
`None` (variable unset) and the empty string are falsy. -/
def truthy : Option String → Bool
  | none => false
  | some s => !(s == "")

/-- The run of `main()`, with the environment, the clock and the fetched
payload passed explicitly.  Returns the network calls issued, in order, and
either the emailed report body or the message of the raised error. -/
def mainRun (rescuetimeKey resendKey : Option String) (today : String)
    (fetched : ReportData) : List NetEvent × Except String String :=
  if !truthy rescuetimeKey then ([], Except.error "RESCUETIME_API_KEY non définie")
  else if !truthy resendKey then ([], Except.error "RESEND_API_KEY non définie")
  else
    match generate_report today fetched with
    | none => ([NetEvent.fetchData], Except.error "ValueError")
    | some report => ([NetEvent.fetchData, NetEvent.sendEmail], Except.ok report)

/-! ### Sums used by the conservation properties -/

/-- Sum of `g` over the values of an association list. -/
def sumBy (g : β → Int) (l : List (String × β)) : Int :=
  (l.map fun p => g p.2).sum

/-- The sum of `total_seconds` over all hour buckets. -/
def hourlyTotal (s : AggState) : Int := sumBy HourBucket.total_seconds s.hourly_data

/-- The sum of the per-category totals. -/
def categoryTotal (s : AggState) : Int := sumBy id s.category_totals

/-- The grand total of the duration fields of the rows. -/
def rowsTotal (rows : List ActivityRow) : Int := (rows.map ActivityRow.seconds).sum

/-- The seconds a run classifies as productive (`productivity >= 1`). -/
def rowsProductive (rows : List ActivityRow) : Int :=
  (rows.map fun r => if r.productivity ≥ 1 then r.seconds else 0).sum

/-- The seconds a run classifies as distracting (the `elif productivity <= -1`). -/
def rowsDistracting (rows : List ActivityRow) : Int :=
  (rows.map fun r => if ¬r.productivity ≥ 1 ∧ r.productivity ≤ -1 then r.seconds else 0).sum

theorem sumBy_updateD (g : β → Int) (dflt : β) (f : β → β) (l : List (String × β))
    (k : String) (δ : Int) (hd : g dflt = 0) (hf : ∀ b, g (f b) = g b + δ) :
    sumBy g (updateD dflt f l k) = sumBy g l + δ := by
  induction l with
  | nil => simp [updateD, sumBy, hf, hd]
  | cons p t ih =>
    obtain ⟨k', v⟩ := p
    by_cases h : k' = k <;> simp [updateD, h, sumBy, hf] at ih ⊢ <;> omega

theorem stepRow_totals (s : AggState) (r : ActivityRow) (s' : AggState)
    (h : stepRow s r = some s') :
    hourlyTotal s' = hourlyTotal s + r.seconds ∧
    categoryTotal s' = categoryTotal s + r.seconds ∧
    s'.total_time = s.total_time + r.seconds ∧
    s'.total_productive = s.total_productive + (if r.productivity ≥ 1 then r.seconds else 0) ∧
    s'.total_distracting = s.total_distracting +
      (if ¬r.productivity ≥ 1 ∧ r.productivity ≤ -1 then r.seconds else 0) := by
  unfold stepRow at h
  cases hp : parseHour r.timestamp with
  | none => rw [hp] at h; exact absurd h (by simp)
  | some hour =>
    rw [hp] at h
    simp only [Option.some.injEq] at h
    subst h
    refine ⟨?_, ?_, rfl, ?_, ?_⟩
    · exact sumBy_updateD _ _ _ _ _ r.seconds rfl fun b => by
        by_cases h1 : r.productivity ≥ 1 <;> by_cases h2 : r.productivity ≤ -1 <;>
          simp [h1, h2]
    · exact sumBy_updateD _ _ _ _ _ r.seconds rfl fun b => rfl
    · by_cases h1 : r.productivity ≥ 1 <;> simp [h1]
    · by_cases h1 : r.productivity ≥ 1 <;> by_cases h2 : r.productivity ≤ -1 <;>
        simp [h1, h2]

theorem foldl_totals (rows : List ActivityRow) (s0 s : AggState)
    (h : List.foldlM stepRow s0 rows = some s) :
    hourlyTotal s = hourlyTotal s0 + rowsTotal rows ∧
    categoryTotal s = categoryTotal s0 + rowsTotal rows ∧
    s.total_time = s0.total_time + rowsTotal rows ∧
    s.total_productive = s0.total_productive + rowsProductive rows ∧
    s.total_distracting = s0.total_distracting + rowsDistracting rows := by
  induction rows generalizing s0 with
  | nil =>
    simp only [List.foldlM_nil, Option.pure_def, Option.some.injEq] at h
    subst h
    simp [rowsTotal, rowsProductive, rowsDistracting]
  | cons r t ih =>
    rw [List.foldlM_cons] at h
    cases hs : stepRow s0 r with
    | none => rw [hs] at h; exact absurd h (by simp)
    | some s1 =>
      rw [hs] at h
      rw [Option.bind_eq_bind, Option.some_bind] at h
      obtain ⟨e1, e2, e3, e4, e5⟩ := stepRow_totals s0 r s1 hs
      obtain ⟨f1, f2, f3, f4, f5⟩ := ih s1 h
      refine ⟨?_, ?_, ?_, ?_, ?_⟩ <;>
        simp [rowsTotal, rowsProductive, rowsDistracting] at * <;> omega

/-! ### Concrete inputs used by the examples and witnesses -/

/-- The timestamp `T` of the spec's worked example. -/
def exT : String := "2024-01-15T09:00:00"

/-- The rows `[(T,3600,_,"A","Work",2), (T,1800,_,"B","Social",-2)]`. -/
def exRows : List ActivityRow :=
  [⟨exT, 3600, 0, "A", "Work", 2⟩, ⟨exT, 1800, 0, "B", "Social", -2⟩]

/-- The loop state reached on `exRows`. -/
def exState : AggState := (aggregate exRows).getD initState

/-- A four-activity hour used to exercise the top-3 selection. -/
def exActs : List Activity :=
  [⟨"w", 10, 0, "c1"⟩, ⟨"x", 40, 1, "c2"⟩, ⟨"y", 20, -1, "c3"⟩, ⟨"z", 30, 2, "c4"⟩]

/-! ### Bounds on the classified sums -/

theorem rows_sums_bounds (rows : List ActivityRow) (hpos : ∀ r ∈ rows, 0 ≤ r.seconds) :
    0 ≤ rowsProductive rows ∧ 0 ≤ rowsDistracting rows ∧
    rowsProductive rows + rowsDistracting rows ≤ rowsTotal rows := by
  induction rows with
  | nil => simp [rowsProductive, rowsDistracting, rowsTotal]
  | cons r t ih =>
    have hr := hpos r (List.mem_cons_self r t)
    obtain ⟨i1, i2, i3⟩ := ih fun x hx => hpos x (List.mem_cons_of_mem _ hx)
    simp only [rowsProductive, rowsDistracting, rowsTotal, List.map_cons, List.sum_cons,
      ge_iff_le] at *
    refine ⟨?_, ?_, ?_⟩ <;> split_ifs <;> omega

/-! ### The claims -/

/-- C1: for every sequence of well-formed `ActivityRow` inputs that the loop of
`generate_report` processes to a final state, the sum of `total_seconds` over
all hour buckets, the sum of the per-category totals, and the accumulated
`total_time` all equal the grand total of the duration fields of the rows. -/
theorem totals_conserved (rows : List ActivityRow) (s : AggState)
    (h : aggregate rows = some s) :
    hourlyTotal s = rowsTotal rows ∧ categoryTotal s = rowsTotal rows ∧
    s.total_time = rowsTotal rows := by
  obtain ⟨e1, e2, e3, -, -⟩ := foldl_totals rows initState s h
  have z1 : hourlyTotal initState = 0 := rfl
  have z2 : categoryTotal initState = 0 := rfl
  have z3 : initState.total_time = 0 := rfl
  refine ⟨?_, ?_, ?_⟩ <;> omega

theorem totals_conserved_witness :
    hourlyTotal exState = rowsTotal exRows ∧ categoryTotal exState = rowsTotal exRows ∧
    exState.total_time = rowsTotal exRows :=
  totals_conserved exRows exState (by decide)

/-- C4: on an empty row list `generate_report` returns exactly the literal
sentinel, as a normal (non-exceptional) return value, with no report
formatting performed. -/
theorem empty_rows_sentinel (today : String) :
    generate_report today ⟨some []⟩ = some noDataMessage := rfl

/-- C5: `format_duration` maps `3661 ↦ "1h01"`, `90 ↦ "1min"` and `0 ↦ "0min"`. -/
theorem format_duration_examples :
    format_duration 3661 = "1h01" ∧ format_duration 90 = "1min" ∧
    format_duration 0 = "0min" := by decide

/-- C6: the rows of the category summary table — the sorted `category_totals`
items the report iterates over — are in descending order of total seconds,
and are a permutation of the accumulated per-category totals. -/
theorem category_table_sorted (s : AggState) :
    List.Sorted catDescOrder (sortedCategories s.category_totals) ∧
    (sortedCategories s.category_totals).Perm s.category_totals :=
  ⟨List.sorted_insertionSort catDescOrder s.category_totals,
   List.perm_insertionSort catDescOrder s.category_totals⟩

/-- C10: a payload with no `"rows"` key is treated exactly like an empty rows
array: `generate_report` returns the sentinel message, not an error. -/
theorem missing_rows_key_like_empty (today : String) :
    generate_report today ⟨none⟩ = generate_report today ⟨some []⟩ ∧
    generate_report today ⟨none⟩ = some noDataMessage :=
  ⟨rfl, rfl⟩

/-- C2: on non-negative durations the percentage fields agree with integer
division truncated toward zero (`Int.tdiv`); they lie in `[0, 100]` when
`total_time > 0`, and are both `0` when `total_time = 0`. -/
theorem percentages_truncated_and_bounded (rows : List ActivityRow) (s : AggState)
    (hpos : ∀ r ∈ rows, 0 ≤ r.seconds) (h : aggregate rows = some s) :
    (0 < s.total_time →
      productivePct s = Int.tdiv (s.total_productive * 100) s.total_time ∧
      distractingPct s = Int.tdiv (s.total_distracting * 100) s.total_time ∧
      0 ≤ productivePct s ∧ productivePct s ≤ 100 ∧
      0 ≤ distractingPct s ∧ distractingPct s ≤ 100) ∧
    (s.total_time = 0 → productivePct s = 0 ∧ distractingPct s = 0) := by
  obtain ⟨-, -, e3, e4, e5⟩ := foldl_totals rows initState s h
  obtain ⟨b1, b2, b3⟩ := rows_sums_bounds rows hpos
  have z3 : initState.total_time = 0 := rfl
  have z4 : initState.total_productive = 0 := rfl
  have z5 : initState.total_distracting = 0 := rfl
  constructor
  · intro hT
    have hTne : s.total_time ≠ 0 := by omega
    have hP0 : 0 ≤ s.total_productive := by omega
    have hPT : s.total_productive ≤ s.total_time := by omega
    have hD0 : 0 ≤ s.total_distracting := by omega
    have hDT : s.total_distracting ≤ s.total_time := by omega
    have hcancel : s.total_time * 100 / s.total_time = 100 :=
      Int.mul_ediv_cancel_left 100 hTne
    have hboundP : s.total_productive * 100 / s.total_time ≤ 100 := by
      calc s.total_productive * 100 / s.total_time
          ≤ s.total_time * 100 / s.total_time :=
            Int.ediv_le_ediv hT (by nlinarith)
        _ = 100 := hcancel
    have hboundD : s.total_distracting * 100 / s.total_time ≤ 100 := by
      calc s.total_distracting * 100 / s.total_time
          ≤ s.total_time * 100 / s.total_time :=
            Int.ediv_le_ediv hT (by nlinarith)
        _ = 100 := hcancel
    simp only [productivePct, distractingPct, hTne, if_true, ne_eq,
      not_false_eq_true, if_pos]
    rw [Int.fdiv_eq_ediv _ (by omega), Int.fdiv_eq_ediv _ (by omega),
      Int.tdiv_eq_ediv (by nlinarith) (by omega), Int.tdiv_eq_ediv (by nlinarith) (by omega)]
    exact ⟨rfl, rfl, Int.ediv_nonneg (by nlinarith) (by omega), hboundP,
      Int.ediv_nonneg (by nlinarith) (by omega), hboundD⟩
  · intro h0
    simp [productivePct, distractingPct, h0]

theorem percentages_truncated_and_bounded_witness :
    (0 < exState.total_time →
      productivePct exState = Int.tdiv (exState.total_productive * 100) exState.total_time ∧
      distractingPct exState = Int.tdiv (exState.total_distracting * 100) exState.total_time ∧
      0 ≤ productivePct exState ∧ productivePct exState ≤ 100 ∧
      0 ≤ distractingPct exState ∧ distractingPct exState ≤ 100) ∧
    (exState.total_time = 0 → productivePct exState = 0 ∧ distractingPct exState = 0) :=
  percentages_truncated_and_bounded exRows exState (by decide) (by decide)

/-- C3: one loop iteration adds a row's seconds to `total_productive` exactly
when its score is `≥ 1`, to `total_distracting` exactly when its score is
`≤ -1`, and to neither otherwise (while `total_time` always grows by the
seconds); and on the spec's two-row example the loop computes
`total_time = 5400`, `total_productive = 3600` (66%), and
`total_distracting = 1800` (33%). -/
theorem classification_and_example :
    (∀ (s : AggState) (r : ActivityRow),
      (stepRow s r).map AggState.total_productive =
        (stepRow s r).map (fun _ => s.total_productive +
          (if r.productivity ≥ 1 then r.seconds else 0)) ∧
      (stepRow s r).map AggState.total_distracting =
        (stepRow s r).map (fun _ => s.total_distracting +
          (if r.productivity ≤ -1 then r.seconds else 0)) ∧
      (stepRow s r).map AggState.total_time =
        (stepRow s r).map (fun _ => s.total_time + r.seconds)) ∧
    aggregate exRows = some exState ∧
    exState.total_time = 5400 ∧ exState.total_productive = 3600 ∧
    productivePct exState = 66 ∧
    exState.total_distracting = 1800 ∧ distractingPct exState = 33 := by
  refine ⟨fun s r => ?_, by decide, by decide, by decide, by decide, by decide, by decide⟩
  cases hs : stepRow s r with
  | none => simp
  | some s' =>
    obtain ⟨-, -, e3, e4, e5⟩ := stepRow_totals s r s' hs
    simp only [Option.map_some', Option.some.injEq]
    refine ⟨?_, ?_, ?_⟩
    · exact e4
    · rw [e5]
      by_cases h2 : r.productivity ≤ -1
      · have h1 : ¬r.productivity ≥ 1 := by omega
        simp [h1, h2]
      · simp [h2]
    · exact e3

/-- C7: the per-hour section lists `topActivities`, at most 3 activities of
the hour, in descending duration order; every listed activity is one of the
hour's activities and its duration is at least that of every activity of the
hour left unlisted; and each listed line carries the emoji label
`get_productivity_label` assigns to the activity's score. -/
theorem hour_section_top3 (acts : List Activity) (a b : Activity)
    (ha : a ∈ topActivities acts) (hb : b ∈ acts) (hnb : b ∉ topActivities acts) :
    (topActivities acts).length ≤ 3 ∧
    List.Sorted actDescOrder (topActivities acts) ∧
    a ∈ acts ∧
    b.seconds ≤ a.seconds ∧
    ∀ act : Activity, renderActivityLine act =
      "- **" ++ act.name ++ "** (" ++ format_duration act.seconds ++ ") "
        ++ get_productivity_label act.productivity ++ "\n" := by
  have hsorted : List.Sorted actDescOrder (acts.insertionSort actDescOrder) :=
    List.sorted_insertionSort actDescOrder acts
  refine ⟨?_, ?_, ?_, ?_, fun act => rfl⟩
  · simp only [topActivities, List.length_take]
    omega
  · exact List.Pairwise.sublist (List.take_sublist 3 _) hsorted
  · exact (List.mem_insertionSort actDescOrder).mp (List.take_subset 3 _ ha)
  · have hbmem : b ∈ acts.insertionSort actDescOrder :=
      (List.mem_insertionSort actDescOrder).mpr hb
    have hsplit : b ∈ (acts.insertionSort actDescOrder).take 3 ++
        (acts.insertionSort actDescOrder).drop 3 := by
      rw [List.take_append_drop]; exact hbmem
    have hbdrop : b ∈ (acts.insertionSort actDescOrder).drop 3 :=
      (List.mem_append.mp hsplit).resolve_left hnb
    have hpw : List.Pairwise actDescOrder ((acts.insertionSort actDescOrder).take 3 ++
        (acts.insertionSort actDescOrder).drop 3) := by
      rw [List.take_append_drop]; exact hsorted
    exact (List.pairwise_append.mp hpw).2.2 a ha b hbdrop

theorem hour_section_top3_witness :
    (topActivities exActs).length ≤ 3 ∧
    List.Sorted actDescOrder (topActivities exActs) ∧
    (⟨"x", 40, 1, "c2"⟩ : Activity) ∈ exActs ∧
    (⟨"w", 10, 0, "c1"⟩ : Activity).seconds ≤ (⟨"x", 40, 1, "c2"⟩ : Activity).seconds ∧
    ∀ act : Activity, renderActivityLine act =
      "- **" ++ act.name ++ "** (" ++ format_duration act.seconds ++ ") "
        ++ get_productivity_label act.productivity ++ "\n" :=
  hour_section_top3 exActs ⟨"x", 40, 1, "c2"⟩ ⟨"w", 10, 0, "c1"⟩
    (by decide) (by decide) (by decide)

/-- C8: when either API key is missing (unset or empty), `main` raises its
`ValueError` before issuing any network call: the run performs no fetch and
no send, and ends in an error. -/
theorem missing_config_fails_before_network (rescuetimeKey resendKey : Option String)
    (today : String) (d : ReportData)
    (h : truthy rescuetimeKey = false ∨ truthy resendKey = false) :
    (mainRun rescuetimeKey resendKey today d).1 = [] ∧
    ∃ msg, (mainRun rescuetimeKey resendKey today d).2 = Except.error msg := by
  rcases h with h | h
  · simp [mainRun, h]
  · cases hk1 : truthy rescuetimeKey <;> simp [mainRun, h, hk1]

theorem missing_config_fails_before_network_witness :
    (mainRun none (some "key") "12/10/2026" ⟨none⟩).1 = [] ∧
    ∃ msg, (mainRun none (some "key") "12/10/2026" ⟨none⟩).2 = Except.error msg :=
  missing_config_fails_before_network none (some "key") "12/10/2026" ⟨none⟩ (Or.inl rfl)

theorem foldl_isSome (rows : List ActivityRow) (s0 : AggState)
    (hwf : ∀ r ∈ rows, (parseHour r.timestamp).isSome) :
    ∃ s, List.foldlM stepRow s0 rows = some s := by
  induction rows generalizing s0 with
  | nil => exact ⟨s0, rfl⟩
  | cons r t ih =>
    have h1 := hwf r (List.mem_cons_self r t)
    cases hp : parseHour r.timestamp with
    | none => rw [hp] at h1; simp at h1
    | some hour =>
      obtain ⟨s1, hs1⟩ : ∃ s1, stepRow s0 r = some s1 := by
        unfold stepRow; rw [hp]; exact ⟨_, rfl⟩
      obtain ⟨s, hs⟩ := ih s1 fun x hx => hwf x (List.mem_cons_of_mem _ hx)
      exact ⟨s, by rw [List.foldlM_cons, hs1, Option.bind_eq_bind, Option.some_bind, hs]⟩

/-- C9: on any non-empty list of rows whose timestamps parse,
`generate_report` terminates normally with a report string (no exception);
the only special case is empty input, handled by the sentinel message. -/
theorem report_total_on_wellformed (today : String) (rows : List ActivityRow)
    (hne : rows ≠ []) (hwf : ∀ r ∈ rows, (parseHour r.timestamp).isSome) :
    ∃ report, generate_report today ⟨some rows⟩ = some report := by
  obtain ⟨s, hs⟩ := foldl_isSome rows initState hwf
  refine ⟨renderReport today s, ?_⟩
  have hemp : rows.isEmpty = false := by
    cases rows with
    | nil => exact absurd rfl hne
    | cons r t => rfl
  simp only [generate_report, ReportData.rowsOrEmpty, Option.getD_some, hemp,
    Bool.false_eq_true, if_false, aggregate, hs, Option.map_some']

theorem report_total_on_wellformed_witness :
    ∃ report, generate_report "15/01/2024" ⟨some exRows⟩ = some report :=
  report_total_on_wellformed "15/01/2024" exRows (by decide) (by decide)

theorem empty_rows_sentinel_witness :
    generate_report "12/10/2026" ⟨some []⟩ = some noDataMessage :=
  empty_rows_sentinel "12/10/2026"

theorem category_table_sorted_witness :
    List.Sorted catDescOrder (sortedCategories exState.category_totals) ∧
    (sortedCategories exState.category_totals).Perm exState.category_totals :=
  category_table_sorted exState

theorem missing_rows_key_like_empty_witness :
    generate_report "12/10/2026" ⟨none⟩ = generate_report "12/10/2026" ⟨some []⟩ ∧
    generate_report "12/10/2026" ⟨none⟩ = some noDataMessage :=
  missing_rows_key_like_empty "12/10/2026"
